import Mathlib

/-!
# Shallow embedding of the NazaraEngine renderer state cache and 3D physics system

This file embeds the state-cache logic of `src/Nazara/Renderer/Renderer.cpp`
(matrix dependency tracking, texture-unit dirty tracking, VAO cache,
`EnsureStateUpdate`) and the NDK `PhysicsSystem3D` (entity classification and
physics synchronization) as executable Lean definitions, and proves the frozen
claims about them.

Conventions of the embedding:
* `NzMatrix4f` is abstracted by a type parameter `α` together with the three
  operations the renderer applies to matrices (`operator*`, `ConcatenateAffine`,
  `Concatenate`), bundled in `MatrixOps`.  The renderer never inspects matrix
  contents, so every claim about it is parametric in `α`.
* C++ pointers to buffers/textures/shaders are modelled as `Option` of a record
  carrying a numeric identity; pointer comparison becomes record equality
  (identities are taken distinct for distinct objects).
* The compile-time guards `NAZARA_RENDERER_SAFE` and `NAZARA_DEBUG` are taken
  as enabled, matching the error-handling design the specification describes.
* GPU side effects are recorded in a `Trace` value returned next to the new
  cached state; state the C++ code does not touch on a path is returned intact.
-/

/-- The `nzMatrixType` enumeration: three leaf matrices and three composites. -/
inductive MatrixType where
  | Projection
  | View
  | World
  | ViewProj
  | WorldView
  | WorldViewProj
deriving DecidableEq, Repr

/-- All matrix types, in enumeration order (used by the `0 .. nzMatrixType_Max`
loops of `Initialize` and `EnsureStateUpdate`). -/
def matrixTypes : List MatrixType :=
  [.Projection, .View, .World, .ViewProj, .WorldView, .WorldViewProj]

/-- The three operations `Renderer.cpp` applies to `NzMatrix4f` values:
`operator*` (used for `ViewProj`), `ConcatenateAffine` (used for `WorldView`)
and `Concatenate` (used for `WorldViewProj`). -/
structure MatrixOps (α : Type) where
  mul : α → α → α
  concatAffine : α → α → α
  concat : α → α → α

/-- The anonymous-namespace `MatrixUnit` structure of `Renderer.cpp`:
cached value, `sent` flag, `updated` flag and shader uniform location. -/
structure MatrixUnit (α : Type) where
  matrix : α
  sent : Bool
  updated : Bool
  location : Int
deriving DecidableEq, Repr

/-- The array `s_matrices[nzMatrixType_Max+1]`, one `MatrixUnit` per type. -/
structure MatrixSlots (α : Type) where
  proj : MatrixUnit α
  view : MatrixUnit α
  world : MatrixUnit α
  viewProj : MatrixUnit α
  worldView : MatrixUnit α
  worldViewProj : MatrixUnit α
deriving DecidableEq, Repr

namespace MatrixSlots

/-- `s_matrices[type]` (read). -/
def get {α : Type} (s : MatrixSlots α) : MatrixType → MatrixUnit α
  | .Projection => s.proj
  | .View => s.view
  | .World => s.world
  | .ViewProj => s.viewProj
  | .WorldView => s.worldView
  | .WorldViewProj => s.worldViewProj

/-- `s_matrices[type] = u` (write). -/
def set {α : Type} (s : MatrixSlots α) : MatrixType → MatrixUnit α → MatrixSlots α
  | .Projection, u => { s with proj := u }
  | .View, u => { s with view := u }
  | .World, u => { s with world := u }
  | .ViewProj, u => { s with viewProj := u }
  | .WorldView, u => { s with worldView := u }
  | .WorldViewProj, u => { s with worldViewProj := u }

end MatrixSlots

/-- `NzRenderer::UpdateMatrix` (Renderer.cpp lines 1478-1515): recompute a
composite matrix from its dependencies and mark it updated; leaf types are a
no-op.  `WorldViewProj` first refreshes `WorldView` if it is stale. -/
def updateMatrix {α : Type} (ops : MatrixOps α) (ty : MatrixType)
    (s : MatrixSlots α) : MatrixSlots α :=
  match ty with
  | .Projection | .View | .World => s
  | .ViewProj =>
      { s with viewProj := { s.viewProj with
          matrix := ops.mul s.view.matrix s.proj.matrix
          updated := true } }
  | .WorldView =>
      { s with worldView := { s.worldView with
          matrix := ops.concatAffine s.world.matrix s.view.matrix
          updated := true } }
  | .WorldViewProj =>
      -- the source's recursive call `UpdateMatrix(nzMatrixType_WorldView)`, inlined
      let s' := if ¬s.worldView.updated then
          { s with worldView := { s.worldView with
              matrix := ops.concatAffine s.world.matrix s.view.matrix
              updated := true } }
        else s
      { s' with worldViewProj := { s'.worldViewProj with
          matrix := ops.concat s'.worldView.matrix s'.proj.matrix
          updated := true } }

/-- The `UpdateFlags` bitmask of `Renderer.cpp` (`Update_Matrices`,
`Update_Shader`, `Update_Textures`, `Update_VAO`), one named field per bit. -/
structure UpdateFlags where
  matrices : Bool
  shader : Bool
  textures : Bool
  vao : Bool
deriving DecidableEq, Repr

/-- `s_updateFlags != Update_None`. -/
def UpdateFlags.any (f : UpdateFlags) : Bool :=
  f.matrices || f.shader || f.textures || f.vao

/-- `Update_None`: every bit clear. -/
def UpdateFlags.none : UpdateFlags :=
  ⟨false, false, false, false⟩

/-- An `NzTexture` as the renderer observes it: identity (for pointer
comparison), `HasMipmaps()`, and `GetType()`/`GetOpenGLID()` for binding. -/
structure Texture where
  id : ℕ
  hasMipmaps : Bool
deriving DecidableEq, Repr

/-- An `NzTextureSampler` as the renderer observes it: an identity for the
sampler configuration plus the mipmap-usage flag toggled by `UseMipmaps`. -/
structure Sampler where
  id : ℕ
  mipmaps : Bool
deriving DecidableEq, Repr, Inhabited

/-- `NzTextureSampler::UseMipmaps(bool)`.  Modelled from the spec: the sampler
class itself is not among the provided sources; per the specification's
`TextureUnit` description, the call updates the sampler's mipmap-usage setting
and reports whether it changed (the renderer clears `samplerUpdated` exactly
when it did). -/
def Sampler.useMipmaps (s : Sampler) (b : Bool) : Sampler × Bool :=
  if s.mipmaps ≠ b then ({ s with mipmaps := b }, true) else (s, false)

/-- The anonymous-namespace `TextureUnit` structure of `Renderer.cpp`, with its
member initializers (`texture = nullptr`, `samplerUpdated = false`,
`textureUpdated = true`). -/
structure TextureUnit where
  sampler : Sampler
  texture : Option Texture
  samplerUpdated : Bool
  textureUpdated : Bool
deriving DecidableEq, Repr, Inhabited

/-- An `NzIndexBuffer` as the renderer observes it: identity,
`IsSequential()` and `IsHardware()`. -/
structure IndexBuffer where
  id : ℕ
  sequential : Bool
  hardware : Bool
deriving DecidableEq, Repr

/-- An `NzVertexBuffer` as the renderer observes it: identity,
`IsHardware()`, and the number of declared vertex elements (each declared
element costs one `glVertexAttribPointer` call when a VAO is programmed). -/
structure VertexBuffer where
  id : ℕ
  hardware : Bool
  declaredElements : ℕ
deriving DecidableEq, Repr

/-- An `NzShader` as the renderer observes it: identity, `IsCompiled()`, and
the uniform locations its implementation reports for the six matrices
(`GetUniformLocation`, `-1` when the uniform is absent). -/
structure Shader where
  id : ℕ
  compiled : Bool
  locProj : Int
  locView : Int
  locWorld : Int
  locViewProj : Int
  locWorldView : Int
  locWorldViewProj : Int
deriving DecidableEq, Repr

/-- The uniform location a shader reports for a given matrix type. -/
def Shader.loc (sh : Shader) : MatrixType → Int
  | .Projection => sh.locProj
  | .View => sh.locView
  | .World => sh.locWorld
  | .ViewProj => sh.locViewProj
  | .WorldView => sh.locWorldView
  | .WorldViewProj => sh.locWorldViewProj

/-- The key of the VAO cache `s_vaos`:
`(active context, index buffer, vertex buffer, instancing flag)`. -/
structure VAOKey where
  context : ℕ
  indexBuffer : Option IndexBuffer
  vertexBuffer : VertexBuffer
  instancing : Bool
deriving DecidableEq, Repr

/-- Sorted duplicate-free insertion, modelling `std::set<unsigned int>::insert`
on `s_dirtyTextureUnits`. -/
def setInsert (u : ℕ) : List ℕ → List ℕ
  | [] => [u]
  | v :: l =>
      if u < v then u :: v :: l
      else if u = v then v :: l
      else v :: setInsert u l

/-- The renderer's cached state: the anonymous-namespace globals of
`Renderer.cpp` that participate in the claims (`s_matrices`, `s_updateFlags`,
`s_textureUnits`, `s_dirtyTextureUnits`, `s_vaos`, `s_currentVAO`,
`s_indexBuffer`, `s_shader`, `s_vertexBuffer`, `s_instancing`,
`s_useSamplerObjects`, `s_useVertexArrayObjects`).  `nextVAO` models the fresh
handles produced by `glGenVertexArrays`. -/
structure RendererState (α : Type) where
  matrices : MatrixSlots α
  updateFlags : UpdateFlags
  textureUnits : List TextureUnit
  dirtyTextureUnits : List ℕ
  vaos : List (VAOKey × ℕ)
  currentVAO : ℕ
  nextVAO : ℕ
  indexBuffer : Option IndexBuffer
  shader : Option Shader
  vertexBuffer : Option VertexBuffer
  instancing : Bool
  useSamplerObjects : Bool
  useVertexArrayObjects : Bool
deriving DecidableEq, Repr

/-- The state established by `NzRenderer::Initialize` (lines 521-601): every
matrix slot holds the identity matrix with `location = -1`, `sent = false`,
`updated = true`; `maxTextureUnit` default-constructed texture units; no bound
buffers or shader; `s_updateFlags = Update_Matrices | Update_Shader |
Update_VAO`. -/
def initRenderer (α : Type) (ident : α) (maxTextureUnit : ℕ)
    (useSamplerObjects useVertexArrayObjects : Bool) : RendererState α :=
  let u : MatrixUnit α := { matrix := ident, sent := false, updated := true, location := -1 }
  { matrices := ⟨u, u, u, u, u, u⟩
    updateFlags := { matrices := true, shader := true, textures := false, vao := true }
    textureUnits := List.replicate maxTextureUnit
      { sampler := { id := 0, mipmaps := true }, texture := Option.none
        samplerUpdated := false, textureUpdated := true }
    dirtyTextureUnits := []
    vaos := []
    currentVAO := 0
    nextVAO := 1
    indexBuffer := Option.none
    shader := Option.none
    vertexBuffer := Option.none
    instancing := false
    useSamplerObjects := useSamplerObjects
    useVertexArrayObjects := useVertexArrayObjects }

/-- `NzRenderer::SetMatrix` (lines 869-913): store the value, mark the slot
updated, clear the `updated` flag of the slot's dependent combinations, and
raise `Update_Matrices`.  (The `NAZARA_DEBUG` range check cannot fire: the Lean
type only has the six in-range values.) -/
def setMatrix {α : Type} (ty : MatrixType) (m : α) (s : RendererState α) :
    RendererState α :=
  let sl := s.matrices.set ty { s.matrices.get ty with matrix := m, updated := true }
  let sl :=
    match ty with
    | .Projection =>
        { sl with viewProj := { sl.viewProj with updated := false }
                  worldViewProj := { sl.worldViewProj with updated := false } }
    | .View =>
        { sl with viewProj := { sl.viewProj with updated := false }
                  world := { sl.world with updated := false }
                  worldViewProj := { sl.worldViewProj with updated := false } }
    | .World =>
        { sl with worldView := { sl.worldView with updated := false }
                  worldViewProj := { sl.worldViewProj with updated := false } }
    | .ViewProj => sl
    | .WorldView =>
        { sl with worldViewProj := { sl.worldViewProj with updated := false } }
    | .WorldViewProj => sl
  { s with matrices := sl
           updateFlags := { s.updateFlags with matrices := true } }

/-- `NzRenderer::GetMatrix` (lines 394-408): lazily refresh the slot if its
`updated` flag is clear, then return the cached value (alongside the possibly
mutated state). -/
def getMatrix {α : Type} (ops : MatrixOps α) (ty : MatrixType)
    (s : RendererState α) : α × RendererState α :=
  let s' := if ¬(s.matrices.get ty).updated then
      { s with matrices := updateMatrix ops ty s.matrices }
    else s
  ((s'.matrices.get ty).matrix, s')

/-- `NzRenderer::SetShader` (lines 971-986): reject uncompiled shaders; record
the new shader and raise `Update_Shader` only when it differs from the bound
one. -/
def setShader {α : Type} (shader : Option Shader) (s : RendererState α) :
    RendererState α :=
  if (match shader with | Option.some sh => !sh.compiled | Option.none => false) then s
  else if s.shader ≠ shader then
    { s with shader := shader
             updateFlags := { s.updateFlags with shader := true } }
  else s

/-- `NzRenderer::SetTexture` (lines 1086-1110): out-of-range units are reported
and ignored; otherwise the texture is recorded, `textureUpdated` cleared, the
sampler's mipmap usage realigned (clearing `samplerUpdated` when that changed
it), the unit added to the pending dirty set and `Update_Textures` raised —
all of it only when the texture actually differs. -/
def setTexture {α : Type} (unit : ℕ) (texture : Option Texture)
    (s : RendererState α) : RendererState α :=
  if unit ≥ s.textureUnits.length then s
  else
    let tu := s.textureUnits.getD unit default
    if tu.texture ≠ texture then
      let tu := { tu with texture := texture, textureUpdated := false }
      let tu :=
        match texture with
        | Option.some t =>
            let (samp, changed) := tu.sampler.useMipmaps t.hasMipmaps
            if changed then { tu with sampler := samp, samplerUpdated := false }
            else { tu with sampler := samp }
        | Option.none => tu
      { s with textureUnits := s.textureUnits.set unit tu
               dirtyTextureUnits := setInsert unit s.dirtyTextureUnits
               updateFlags := { s.updateFlags with textures := true } }
    else s

/-- `NzRenderer::SetTextureSampler` (lines 1112-1130): out-of-range units are
reported and ignored; otherwise the sampler is stored with `samplerUpdated`
cleared, its mipmap usage realigned with the bound texture, the unit added to
the pending dirty set and `Update_Textures` raised. -/
def setTextureSampler {α : Type} (unit : ℕ) (sampler : Sampler)
    (s : RendererState α) : RendererState α :=
  if unit ≥ s.textureUnits.length then s
  else
    let tu := s.textureUnits.getD unit default
    let tu := { tu with sampler := sampler, samplerUpdated := false }
    let tu :=
      match tu.texture with
      | Option.some t => { tu with sampler := (tu.sampler.useMipmaps t.hasMipmaps).1 }
      | Option.none => tu
    { s with textureUnits := s.textureUnits.set unit tu
             dirtyTextureUnits := setInsert unit s.dirtyTextureUnits
             updateFlags := { s.updateFlags with textures := true } }

/-- `NzRenderer::SetVertexBuffer` (lines 1132-1147): reject non-hardware
buffers; record the buffer and raise `Update_VAO` only when the pointer is
non-null and differs from the bound one. -/
def setVertexBuffer {α : Type} (vertexBuffer : Option VertexBuffer)
    (s : RendererState α) : RendererState α :=
  if (match vertexBuffer with
      | Option.some vb => !vb.hardware
      | Option.none => false) then s
  else if (match vertexBuffer with
      | Option.some _ => decide (s.vertexBuffer ≠ vertexBuffer)
      | Option.none => false) then
    { s with vertexBuffer := vertexBuffer
             updateFlags := { s.updateFlags with vao := true } }
  else s

/-- `NzRenderer::SetIndexBuffer` (lines 799-814): reject buffers that are
neither sequential nor hardware; record the buffer (null included) and raise
`Update_VAO` when it differs from the bound one. -/
def setIndexBuffer {α : Type} (indexBuffer : Option IndexBuffer)
    (s : RendererState α) : RendererState α :=
  if (match indexBuffer with
      | Option.some ib => !ib.sequential && !ib.hardware
      | Option.none => false) then s
  else if s.indexBuffer ≠ indexBuffer then
    { s with indexBuffer := indexBuffer
             updateFlags := { s.updateFlags with vao := true } }
  else s

/-- `NzRenderer::EnableInstancing` (lines 1229-1236). -/
def enableInstancing {α : Type} (instancing : Bool) (s : RendererState α) :
    RendererState α :=
  if s.instancing ≠ instancing then
    { s with instancing := instancing
             updateFlags := { s.updateFlags with vao := true } }
  else s

/-- The GPU commands `EnsureStateUpdate` issues, as observed by the claims:
`SendMatrix` calls (in order), `glVertexAttribPointer` calls, texture binds and
sampler applications from the dirty-unit walk, and the vertex-array handle
bound for the draw.  (The final defensive per-unit `glBindTexture` walk and
`ApplyStates` touch no cached state and no claim counts them.) -/
structure Trace where
  sentMatrices : List MatrixType
  attribSpecs : ℕ
  textureBinds : List ℕ
  samplerBinds : List ℕ
  boundVAO : Option ℕ
deriving DecidableEq, Repr

/-- The empty trace. -/
def Trace.empty : Trace :=
  ⟨[], 0, [], [], Option.none⟩

/-- The `Update_Shader` block of `EnsureStateUpdate` (lines 1260-1276): when a
shader change is pending, re-resolve each matrix's uniform location, clear
every `sent` flag, raise `Update_Matrices` and clear `Update_Shader`. -/
def shaderStep {α : Type} (sh : Shader) (s : RendererState α) : RendererState α :=
  if s.updateFlags.shader then
    { s with
      matrices :=
        { proj := { s.matrices.proj with location := sh.locProj, sent := false }
          view := { s.matrices.view with location := sh.locView, sent := false }
          world := { s.matrices.world with location := sh.locWorld, sent := false }
          viewProj := { s.matrices.viewProj with location := sh.locViewProj, sent := false }
          worldView := { s.matrices.worldView with location := sh.locWorldView, sent := false }
          worldViewProj :=
            { s.matrices.worldViewProj with location := sh.locWorldViewProj, sent := false } }
      updateFlags := { s.updateFlags with matrices := true, shader := false } }
  else s

/-- The `Update_Textures` block of `EnsureStateUpdate` (lines 1282-1323): walk
the pending dirty units; with sampler objects, rebind the texture and/or the
sampler only where the matching sub-flag is clear, otherwise rebind and
re-apply both; then clear the pending set and `Update_Textures`.  Returns the
new state plus the texture-bind and sampler-application unit lists. -/
def textureStep {α : Type} (s : RendererState α) :
    RendererState α × List ℕ × List ℕ :=
  if s.updateFlags.textures then
    let step := fun (acc : List TextureUnit × List ℕ × List ℕ) (i : ℕ) =>
      let units := acc.1
      let tb := acc.2.1
      let sb := acc.2.2
      let tu := units.getD i default
      if s.useSamplerObjects then
        let (tu, tb) := if ¬tu.textureUpdated
          then ({ tu with textureUpdated := true }, tb ++ [i]) else (tu, tb)
        let (tu, sb) := if ¬tu.samplerUpdated
          then ({ tu with samplerUpdated := true }, sb ++ [i]) else (tu, sb)
        (units.set i tu, tb, sb)
      else
        (units.set i { tu with textureUpdated := true, samplerUpdated := true },
         tb ++ [i], sb ++ [i])
    let r := s.dirtyTextureUnits.foldl step (s.textureUnits, [], [])
    ({ s with textureUnits := r.1
              dirtyTextureUnits := []
              updateFlags := { s.updateFlags with textures := false } }, r.2.1, r.2.2)
  else (s, [], [])

/-- One iteration of the `Update_Matrices` loop of `EnsureStateUpdate` (lines
1327-1338): if the slot's uniform exists in the shader, lazily refresh a stale
value, send it (`SendMatrix`) and mark it sent. -/
def sendMatrixStep {α : Type} (ops : MatrixOps α) (ty : MatrixType)
    (acc : MatrixSlots α × List MatrixType) : MatrixSlots α × List MatrixType :=
  if ((acc.1).get ty).location ≠ -1 then
    let sl := if ¬((acc.1).get ty).updated then updateMatrix ops ty acc.1 else acc.1
    (sl.set ty { sl.get ty with sent := true }, acc.2 ++ [ty])
  else acc

/-- The `Update_Matrices` block of `EnsureStateUpdate` (lines 1325-1341): loop
over the six matrix slots in enumeration order, then clear `Update_Matrices`.
Returns the new state plus the list of matrices sent to the shader. -/
def matrixStep {α : Type} (ops : MatrixOps α) (s : RendererState α) :
    RendererState α × List MatrixType :=
  if s.updateFlags.matrices then
    let r := matrixTypes.foldl (fun acc ty => sendMatrixStep ops ty acc)
      (s.matrices, [])
    ({ s with matrices := r.1
              updateFlags := { s.updateFlags with matrices := false } }, r.2)
  else (s, [])

/-- Lookup in the VAO cache `s_vaos` (`std::map::find`). -/
def findVAO (key : VAOKey) : List (VAOKey × ℕ) → Option ℕ
  | [] => Option.none
  | (k, h) :: l => if k = key then Option.some h else findVAO key l

/-- The key the VAO block builds:
`(NzContext::GetCurrent(), s_indexBuffer, s_vertexBuffer, s_instancing)`. -/
def vaoKey {α : Type} (c : ℕ) (vb : VertexBuffer) (s : RendererState α) : VAOKey :=
  { context := c, indexBuffer := s.indexBuffer, vertexBuffer := vb
    instancing := s.instancing }

/-- `NzRenderer::EnsureStateUpdate` (lines 1238-1476).  Returns the
success flag, the new cached state and the trace of GPU commands issued.
Mirrors the source's control flow:
1. fail without an active context, then without a bound shader;
2. bind the shader; on a pending shader change re-resolve uniform locations
   and clear the `sent` flags (`shaderStep`);
3. if any update flag is set: process dirty textures (`textureStep`), send
   matrices (`matrixStep`), then, if `Update_VAO` is set, fail when no vertex
   buffer is bound (the preceding updates are already committed), otherwise
   resolve the VAO cache and (re)specify vertex attributes on a miss —
   one `glVertexAttribPointer` per declared element plus four instancing rows
   when instancing is on — clearing `Update_VAO` only when VAOs are supported;
4. bind the resolved vertex-array handle for the draw. -/
def ensureStateUpdate {α : Type} (ops : MatrixOps α) (ctx : Option ℕ)
    (s : RendererState α) : Bool × RendererState α × Trace :=
  match ctx with
  | Option.none => (false, s, Trace.empty)
  | Option.some c =>
    match s.shader with
    | Option.none => (false, s, Trace.empty)
    | Option.some sh =>
      -- shaderImpl->Bind(); then the Update_Shader block
      let s1 := shaderStep sh s
      -- shaderImpl->BindTextures()
      if s1.updateFlags.any then
        let r2 := textureStep s1
        let s2 := r2.1
        let texBinds := r2.2.1
        let sampBinds := r2.2.2
        let r3 := matrixStep ops s2
        let s3 := r3.1
        let sent := r3.2
        if s3.updateFlags.vao then
          match s3.vertexBuffer with
          | Option.none =>
              -- NazaraError("No vertex buffer"): the draw is cancelled, but the
              -- shader/texture/matrix updates above are already committed
              (false, s3,
               { Trace.empty with sentMatrices := sent, textureBinds := texBinds
                                  samplerBinds := sampBinds })
          | Option.some vb =>
              let r4 : RendererState α × Bool :=
                if s3.useVertexArrayObjects then
                  match findVAO (vaoKey c vb s3) s3.vaos with
                  | Option.none =>
                      ({ s3 with currentVAO := s3.nextVAO
                                 nextVAO := s3.nextVAO + 1
                                 vaos := (vaoKey c vb s3, s3.nextVAO) :: s3.vaos },
                       true)
                  | Option.some h => ({ s3 with currentVAO := h }, false)
                else (s3, true)
              let s4 := r4.1
              let update := r4.2
              let specs := if update
                then vb.declaredElements + (if s4.instancing then 4 else 0) else 0
              let s5 := if s4.useVertexArrayObjects then
                  { s4 with updateFlags := { s4.updateFlags with vao := false } }
                else s4
              (true, s5,
               { sentMatrices := sent, attribSpecs := specs
                 textureBinds := texBinds, samplerBinds := sampBinds
                 boundVAO := if s5.useVertexArrayObjects
                   then Option.some s5.currentVAO else Option.none })
        else
          (true, s3,
           { Trace.empty with sentMatrices := sent, textureBinds := texBinds
                              samplerBinds := sampBinds
                              boundVAO := if s3.useVertexArrayObjects
                                then Option.some s3.currentVAO else Option.none })
      else
        (true, s1,
         { Trace.empty with boundVAO := if s1.useVertexArrayObjects
             then Option.some s1.currentVAO else Option.none })

/-- A `Nz::Vector3f`, with exact rational coordinates. -/
structure Vec3 where
  x : ℚ
  y : ℚ
  z : ℚ
deriving DecidableEq, Repr

/-- Componentwise subtraction (`operator-` on `NzVector3`). -/
def Vec3.sub (a b : Vec3) : Vec3 :=
  ⟨a.x - b.x, a.y - b.y, a.z - b.z⟩

/-- Scaling by a scalar (`operator*` on `NzVector3`). -/
def Vec3.smul (a : Vec3) (k : ℚ) : Vec3 :=
  ⟨a.x * k, a.y * k, a.z * k⟩

/-- `Nz::Vector3f::Zero()`. -/
def Vec3.zero : Vec3 :=
  ⟨0, 0, 0⟩

/-- The quaternion operations `PhysicsSystem3D::OnUpdate` applies to rotations,
over an abstract rotation type `ρ`: `GetConjugate`, `operator*`,
`ToEulerAngles` (pitch, yaw, roll, in degrees) and `Nz::ToRadians` (kept
abstract: the degree-to-radian factor is irrational). -/
structure RotOps (ρ : Type) where
  conjugate : ρ → ρ
  mul : ρ → ρ → ρ
  toEulerAngles : ρ → Vec3
  toRadians : ℚ → ℚ

/-- A `Nz::RigidBody3D` as the physics system observes it: position, rotation,
linear velocity and angular velocity. -/
structure Body (ρ : Type) where
  position : Vec3
  rotation : ρ
  velocity : Vec3
  angularVelocity : Vec3
deriving DecidableEq, Repr

/-- The NDK component types `PhysicsSystem3D` mentions. -/
inductive CompType where
  | node
  | collision3D
  | physics3D
  | physics2D
deriving DecidableEq, Repr

/-- An NDK entity as `PhysicsSystem3D` observes it: identity, the set of
attached component types, the `NodeComponent`'s global position/rotation, and
the rigid body owned by its physics/collision component
(`PhysicsComponent3D::GetRigidBody` for dynamic members,
`CollisionComponent3D::GetStaticBody` for static members). -/
structure EcsEntity (ρ : Type) where
  id : ℕ
  comps : List CompType
  nodePosition : Vec3
  nodeRotation : ρ
  body : Body ρ
deriving DecidableEq, Repr

/-- `Entity::HasComponent<C>()`. -/
def hasComp {ρ : Type} (c : CompType) (e : EcsEntity ρ) : Prop :=
  c ∈ e.comps

instance {ρ : Type} (c : CompType) (e : EcsEntity ρ) : Decidable (hasComp c e) :=
  inferInstanceAs (Decidable (c ∈ e.comps))

/-- The generic System membership test over the `Required` / `RequiredAny` /
`Excluded` component sets.  Modelled from the spec: the `Ndk::System` /
`SystemBase` filtering code is not among the provided sources; spec §3
(`System`) says an entity qualifies when it has ALL required components, AT
LEAST ONE of the `RequiredAny` set when that set is non-empty, and NONE of the
excluded components. -/
def systemAccepts {ρ : Type} (required requiredAny excluded : List CompType)
    (e : EcsEntity ρ) : Prop :=
  (∀ c ∈ required, hasComp c e) ∧
  (requiredAny ≠ [] → ∃ c ∈ requiredAny, hasComp c e) ∧
  (∀ c ∈ excluded, ¬hasComp c e)

instance {ρ : Type} (required requiredAny excluded : List CompType)
    (e : EcsEntity ρ) :
    Decidable (systemAccepts required requiredAny excluded e) :=
  inferInstanceAs (Decidable (_ ∧ _ ∧ _))

/-- The component sets declared by the `PhysicsSystem3D` constructor
(part_002 lines 27-32): `Requires<NodeComponent>()`,
`RequiresAny<CollisionComponent3D, PhysicsComponent3D>()`,
`Excludes<PhysicsComponent2D>()`. -/
def physicsSystem3DRequired : List CompType := [.node]

/-- The `RequiresAny` set of `PhysicsSystem3D`. -/
def physicsSystem3DRequiredAny : List CompType := [.collision3D, .physics3D]

/-- The `Excludes` set of `PhysicsSystem3D`. -/
def physicsSystem3DExcluded : List CompType := [.physics2D]

/-- Whether an entity qualifies for `PhysicsSystem3D`. -/
def physicsSystem3DAccepts {ρ : Type} (e : EcsEntity ρ) : Prop :=
  systemAccepts physicsSystem3DRequired physicsSystem3DRequiredAny
    physicsSystem3DExcluded e

instance {ρ : Type} (e : EcsEntity ρ) : Decidable (physicsSystem3DAccepts e) :=
  inferInstanceAs (Decidable (systemAccepts _ _ _ e))

/-- The mutable state of a `PhysicsSystem3D`: the lazily created physics world
(`m_world`, with its `Step` count) and the two entity partitions
(`m_dynamicObjects`, `m_staticObjects`). -/
structure PhysicsSystem3DState (ρ : Type) where
  world : Option ℕ
  dynamicObjects : List (EcsEntity ρ)
  staticObjects : List (EcsEntity ρ)
deriving DecidableEq, Repr

/-- The state built by the `PhysicsSystem3D` default constructor (part_002
lines 27-32): it only declares the component sets; `m_world` is not created
and both partitions are empty. -/
def initPhysicsSystem3D (ρ : Type) : PhysicsSystem3DState ρ :=
  { world := Option.none, dynamicObjects := [], staticObjects := [] }

/-- `Ndk::EntityList::Remove`, by entity identity. -/
def removeEntity {ρ : Type} (eid : ℕ) (l : List (EcsEntity ρ)) :
    List (EcsEntity ρ) :=
  l.filter (fun e => e.id ≠ eid)

/-- `Ndk::EntityList::Insert`: a handle already present is not duplicated. -/
def insertEntity {ρ : Type} (e : EcsEntity ρ) (l : List (EcsEntity ρ)) :
    List (EcsEntity ρ) :=
  if l.any (fun e' => e'.id = e.id) then l else l ++ [e]

/-- `PhysicsSystem3D::OnEntityValidation` (part_002 lines 60-75): when the
entity is not newly added, remove it from the partition opposite to the one it
now belongs to; insert it into `m_dynamicObjects` when it has a
`PhysicsComponent3D` and into `m_staticObjects` otherwise; finally create the
physics world if it does not exist yet (`CreatePhysWorld`). -/
def onEntityValidation {ρ : Type} (e : EcsEntity ρ) (justAdded : Bool)
    (s : PhysicsSystem3DState ρ) : PhysicsSystem3DState ρ :=
  let s :=
    if ¬justAdded then
      if hasComp .physics3D e then
        { s with staticObjects := removeEntity e.id s.staticObjects }
      else
        { s with dynamicObjects := removeEntity e.id s.dynamicObjects }
    else s
  let s :=
    if hasComp .physics3D e then
      { s with dynamicObjects := insertEntity e s.dynamicObjects }
    else
      { s with staticObjects := insertEntity e s.staticObjects }
  if s.world = Option.none then { s with world := Option.some 0 } else s

/-- The dynamic-entity half of `PhysicsSystem3D::OnUpdate` (part_002 lines
90-98): copy the simulated body's rotation and position into the scene node. -/
def dynamicSync {ρ : Type} (e : EcsEntity ρ) : EcsEntity ρ :=
  { e with nodeRotation := e.body.rotation, nodePosition := e.body.position }

/-- The static-entity half of `PhysicsSystem3D::OnUpdate` (part_002 lines
101-136): if the node moved, push the new position into the body and give it
the velocity `(newPosition - oldPosition) * invElapsedTime`, else zero the
velocity; if the node rotated, compute the relative rotation, convert it to
Euler angles scaled by `invElapsedTime` (in radians) as angular velocity and
restore the body's old rotation, else zero the angular velocity. -/
def staticSync {ρ : Type} [DecidableEq ρ] (ops : RotOps ρ) (invElapsedTime : ℚ)
    (e : EcsEntity ρ) : EcsEntity ρ :=
  let oldRotation := e.body.rotation
  let oldPosition := e.body.position
  let newRotation := e.nodeRotation
  let newPosition := e.nodePosition
  let body :=
    if newPosition ≠ oldPosition then
      { e.body with position := newPosition
                    velocity := (newPosition.sub oldPosition).smul invElapsedTime }
    else
      { e.body with velocity := Vec3.zero }
  let body :=
    if newRotation ≠ oldRotation then
      let transition := ops.mul newRotation (ops.conjugate oldRotation)
      let angles := ops.toEulerAngles transition
      { body with
          rotation := oldRotation
          angularVelocity :=
            ⟨ops.toRadians (angles.x * invElapsedTime),
             ops.toRadians (angles.y * invElapsedTime),
             ops.toRadians (angles.z * invElapsedTime)⟩ }
    else { body with angularVelocity := Vec3.zero }
  { e with body := body }

/-- `PhysicsSystem3D::OnUpdate` (part_002 lines 83-137): a no-op while
`m_world` does not exist; otherwise step the world, sync dynamic entities
physics→node, then sync static entities node→physics with
`invElapsedTime = 1 / elapsedTime`.  `stepDyn` models the integration
`Nz::PhysWorld3D::Step` performs on dynamic rigid bodies.  Modelled from the
spec for the step's effect: the physics world class is not among the provided
sources; per the spec's glossary, dynamic bodies are integrated by the
simulation each step while static bodies are not advanced by it (source
comment, part_002 line 114: the physical motor does not apply the speed on
static objects). -/
def onUpdate {ρ : Type} [DecidableEq ρ] (ops : RotOps ρ)
    (stepDyn : ℚ → Body ρ → Body ρ) (elapsedTime : ℚ)
    (s : PhysicsSystem3DState ρ) : PhysicsSystem3DState ρ :=
  match s.world with
  | Option.none => s
  | Option.some n =>
    -- m_world->Step(elapsedTime)
    let s := { s with
      world := Option.some (n + 1)
      dynamicObjects :=
        s.dynamicObjects.map
          (fun (e : EcsEntity ρ) => { e with body := stepDyn elapsedTime e.body }) }
    -- dynamic loop: physics → node
    let s := { s with dynamicObjects := s.dynamicObjects.map dynamicSync }
    -- static loop: node → physics
    let invElapsedTime := 1 / elapsedTime
    { s with staticObjects := s.staticObjects.map (staticSync ops invElapsedTime) }

/-! ## Concrete fixtures for witnesses and counterexamples -/

/-- Free matrix terms: an instantiation of the abstract matrix type in which
two values are equal exactly when they were built by the same operations, so
staleness of a cached composite is observable. -/
inductive MatTerm where
  | leaf : ℕ → MatTerm
  | mulT : MatTerm → MatTerm → MatTerm
  | affT : MatTerm → MatTerm → MatTerm
  | catT : MatTerm → MatTerm → MatTerm
deriving DecidableEq, Repr

/-- The matrix operations on free terms. -/
def freeOps : MatrixOps MatTerm :=
  ⟨.mulT, .affT, .catT⟩

/-- A small concrete renderer state: the state right after `Initialize` with
two texture units, sampler objects and VAOs supported, matrices instantiated
at free terms. -/
def baseState : RendererState MatTerm :=
  initRenderer MatTerm (.leaf 0) 2 true true

/-! ## Claims -/

/-- C1: the claim states that after any sequence of `SetMatrix` calls on leaf
matrices, `GetMatrix` of any composite reflects the most recent leaf values.
The code violates this: `SetMatrix(nzMatrixType_View)` clears the `updated`
flag of `ViewProj`, `World` and `WorldViewProj` but not of `WorldView`
(Renderer.cpp lines 890-894), so a `WorldView` computed before a `View` change
stays cached.  This theorem evaluates the embedded code on the failing
sequence `SetMatrix(World, W); SetMatrix(View, V₀); GetMatrix(WorldView);
SetMatrix(View, V₁); GetMatrix(WorldView)`: the final read returns the stale
`W ⋆ V₀` instead of `W ⋆ V₁` built from the most recent leaves. -/
theorem claim_C1_stale_worldview :
    (let s₁ := setMatrix .World (.leaf 1) baseState
     let s₂ := setMatrix .View (.leaf 2) s₁
     let s₃ := (getMatrix freeOps .WorldView s₂).2
     let s₄ := setMatrix .View (.leaf 3) s₃
     s₄.matrices.world.matrix = .leaf 1 ∧
     s₄.matrices.view.matrix = .leaf 3 ∧
     (getMatrix freeOps .WorldView s₄).1 = .affT (.leaf 1) (.leaf 2) ∧
     (getMatrix freeOps .WorldView s₄).1 ≠
       freeOps.concatAffine s₄.matrices.world.matrix s₄.matrices.view.matrix) := by
  decide

/-- C4: `SetMatrix` on a leaf matrix stores the value, marks the slot updated,
clears the `updated` flag of exactly its declared dependents
(`Projection → {ViewProj, WorldViewProj}`;
`View → {ViewProj, World, WorldViewProj}`, the View→World cross-dependency
included; `World → {WorldView, WorldViewProj}`), raises `Update_Matrices`, and
leaves every other slot field and every other piece of renderer state
unchanged. -/
theorem claim_C4_leaf_invalidation {α : Type} (s : RendererState α) (m : α) :
    setMatrix .Projection m s =
      { s with
          matrices := { s.matrices with
            proj := { s.matrices.proj with matrix := m, updated := true }
            viewProj := { s.matrices.viewProj with updated := false }
            worldViewProj := { s.matrices.worldViewProj with updated := false } }
          updateFlags := { s.updateFlags with matrices := true } } ∧
    setMatrix .View m s =
      { s with
          matrices := { s.matrices with
            view := { s.matrices.view with matrix := m, updated := true }
            viewProj := { s.matrices.viewProj with updated := false }
            world := { s.matrices.world with updated := false }
            worldViewProj := { s.matrices.worldViewProj with updated := false } }
          updateFlags := { s.updateFlags with matrices := true } } ∧
    setMatrix .World m s =
      { s with
          matrices := { s.matrices with
            world := { s.matrices.world with matrix := m, updated := true }
            worldView := { s.matrices.worldView with updated := false }
            worldViewProj := { s.matrices.worldViewProj with updated := false } }
          updateFlags := { s.updateFlags with matrices := true } } :=
  ⟨rfl, rfl, rfl⟩

/-- C9: `SetTexture` and `SetTextureSampler` on a unit index at or beyond the
number of texture units report an error and leave the whole renderer state —
texture units, pending dirty set, update flags included — exactly as it was. -/
theorem claim_C9_out_of_range_noop {α : Type} (s : RendererState α) (unit : ℕ)
    (tex : Option Texture) (samp : Sampler)
    (h : unit ≥ s.textureUnits.length) :
    setTexture unit tex s = s ∧ setTextureSampler unit samp s = s := by
  refine ⟨?_, ?_⟩
  · unfold setTexture
    rw [if_pos h]
  · unfold setTextureSampler
    rw [if_pos h]

/-- Witness for C9 at a concrete input: unit 2 on a state with 2 texture
units. -/
theorem claim_C9_out_of_range_noop_witness :
    (2 ≥ baseState.textureUnits.length) ∧
    setTexture 2 (Option.some ⟨7, true⟩) baseState = baseState ∧
    setTextureSampler 2 ⟨5, false⟩ baseState = baseState :=
  ⟨by decide,
   (claim_C9_out_of_range_noop baseState 2 (Option.some ⟨7, true⟩) ⟨5, false⟩
      (by decide)).1,
   (claim_C9_out_of_range_noop baseState 2 (Option.some ⟨7, true⟩) ⟨5, false⟩
      (by decide)).2⟩

/-- C10: `SetVertexBuffer` with a null pointer is a complete no-op (the
binding can never be cleared through it), whereas `SetIndexBuffer` accepts
null: when an index buffer was bound it clears the binding and raises
`Update_VAO`. -/
theorem claim_C10_null_vertex_buffer {α : Type} (s : RendererState α) :
    setVertexBuffer Option.none s = s ∧
    (s.indexBuffer ≠ Option.none →
      setIndexBuffer Option.none s =
        { s with indexBuffer := Option.none
                 updateFlags := { s.updateFlags with vao := true } }) := by
  refine ⟨?_, fun h => ?_⟩
  · unfold setVertexBuffer
    simp
  · unfold setIndexBuffer
    simp [h]

/-- Witness for C10 at a concrete input: a state with index buffer 3 bound. -/
theorem claim_C10_null_vertex_buffer_witness :
    (let s := { baseState with indexBuffer := Option.some ⟨3, false, true⟩ }
     setVertexBuffer Option.none s = s ∧
     setIndexBuffer Option.none s =
       { s with indexBuffer := Option.none
                updateFlags := { s.updateFlags with vao := true } }) :=
  ⟨(claim_C10_null_vertex_buffer _).1,
   (claim_C10_null_vertex_buffer _).2 (by decide)⟩

/-- Trivial rotation operations on the one-point rotation type, for concrete
scenarios in which rotations never change. -/
def unitRotOps : RotOps Unit :=
  ⟨fun _ => (), fun _ _ => (), fun _ => Vec3.zero, fun q => q⟩

/-- A concrete entity holding a `NodeComponent`, a `CollisionComponent3D` and
a `PhysicsComponent3D` at once. -/
def entBoth : EcsEntity Unit :=
  { id := 0
    comps := [.node, .collision3D, .physics3D]
    nodePosition := Vec3.zero
    nodeRotation := ()
    body := { position := Vec3.zero, rotation := (), velocity := Vec3.zero
              angularVelocity := Vec3.zero } }

/-- The spec's concrete physics scenario: a static entity whose body sits at
the origin while the scene graph moved its node to `(2,0,0)`. -/
def entStaticMoved : EcsEntity Unit :=
  { id := 1
    comps := [.node, .collision3D]
    nodePosition := ⟨2, 0, 0⟩
    nodeRotation := ()
    body := { position := Vec3.zero, rotation := (), velocity := Vec3.zero
              angularVelocity := Vec3.zero } }

/-- A physics system whose world exists and whose only member is the moved
static entity. -/
def physStateStatic : PhysicsSystem3DState Unit :=
  { world := Option.some 0, dynamicObjects := [], staticObjects := [entStaticMoved] }

/-- Inserting an entity leaves some entity with its identity in the list. -/
theorem insertEntity_mem {ρ : Type} (e : EcsEntity ρ) (l : List (EcsEntity ρ)) :
    ∃ e' ∈ insertEntity e l, e'.id = e.id := by
  unfold insertEntity
  split
  · rename_i h
    simp only [List.any_eq_true, decide_eq_true_eq] at h
    obtain ⟨e', he', hid⟩ := h
    exact ⟨e', he', hid⟩
  · exact ⟨e, by simp, rfl⟩

/-- After removal, no entity with the removed identity remains. -/
theorem removeEntity_not_mem {ρ : Type} (eid : ℕ) (l : List (EcsEntity ρ)) :
    ∀ e' ∈ removeEntity eid l, e'.id ≠ eid := by
  intro e' h
  unfold removeEntity at h
  simp only [List.mem_filter, decide_eq_true_eq] at h
  exact h.2

/-- C3, counterexample to the claim as stated: the system's excluded-component
declaration names `PhysicsComponent2D`, not one of the two classifying
components, so the dynamic-physics and static-collision components are not
mutually exclusive on a member entity: an entity carrying a `NodeComponent`,
a `CollisionComponent3D` *and* a `PhysicsComponent3D` qualifies for the
system. -/
theorem claim_C3_not_mutually_exclusive :
    physicsSystem3DAccepts entBoth ∧
    hasComp .collision3D entBoth ∧
    hasComp .physics3D entBoth ∧
    physicsSystem3DExcluded = [.physics2D] := by
  refine ⟨⟨?_, ?_, ?_⟩, ?_, ?_, rfl⟩ <;> decide


/-- How `OnEntityValidation` transforms the two partitions: the target
partition (chosen by presence of `PhysicsComponent3D`) receives the entity,
and on revalidation the opposite partition has the entity removed. -/
theorem onEntityValidation_objects {ρ : Type} [DecidableEq ρ] (e : EcsEntity ρ)
    (j : Bool) (s : PhysicsSystem3DState ρ) :
    (onEntityValidation e j s).dynamicObjects =
      (if hasComp .physics3D e then insertEntity e s.dynamicObjects
       else if j then s.dynamicObjects else removeEntity e.id s.dynamicObjects) ∧
    (onEntityValidation e j s).staticObjects =
      (if hasComp .physics3D e then
        (if j then s.staticObjects else removeEntity e.id s.staticObjects)
       else insertEntity e s.staticObjects) := by
  unfold onEntityValidation
  by_cases hc : hasComp .physics3D e <;> cases j <;>
    refine ⟨?_, ?_⟩ <;>
    simp [hc] <;> (try split <;> simp)

/-- C3, amended: every validated entity ends up in exactly one of the two
partitions, chosen by presence of `PhysicsComponent3D` (dynamic if present,
static otherwise).  Exclusivity of the partitions comes from the validation
protocol itself — a newly added entity is in neither list, a revalidated one
is removed from the opposite partition — not from the excluded-component
declaration, which excludes `PhysicsComponent2D` (and so does not make
`CollisionComponent3D` and `PhysicsComponent3D` mutually exclusive). -/
theorem claim_C3_one_partition {ρ : Type} [DecidableEq ρ] (e : EcsEntity ρ)
    (justAdded : Bool) (s : PhysicsSystem3DState ρ)
    (h : justAdded = true →
      (∀ e' ∈ s.dynamicObjects, e'.id ≠ e.id) ∧
      (∀ e' ∈ s.staticObjects, e'.id ≠ e.id)) :
    ((∃ e' ∈ (onEntityValidation e justAdded s).dynamicObjects, e'.id = e.id) ↔
       hasComp .physics3D e) ∧
    ((∃ e' ∈ (onEntityValidation e justAdded s).staticObjects, e'.id = e.id) ↔
       ¬hasComp .physics3D e) := by
  obtain ⟨hd, hs⟩ := onEntityValidation_objects e justAdded s
  rw [hd, hs]
  by_cases hc : hasComp .physics3D e
  · refine ⟨iff_of_true ?_ hc, iff_of_false ?_ (by simpa using hc)⟩
    · simp only [hc, if_true]
      exact insertEntity_mem e _
    · simp only [hc, if_true]
      cases justAdded
      · simp only [Bool.false_eq_true, if_false]
        rintro ⟨e', he', hid⟩
        exact removeEntity_not_mem e.id s.staticObjects e' he' hid
      · simp only [if_true]
        rintro ⟨e', he', hid⟩
        exact (h rfl).2 e' he' hid
  · refine ⟨iff_of_false ?_ hc, iff_of_true ?_ hc⟩
    · simp only [hc, if_false]
      cases justAdded
      · simp only [Bool.false_eq_true, if_false]
        rintro ⟨e', he', hid⟩
        exact removeEntity_not_mem e.id s.dynamicObjects e' he' hid
      · simp only [if_true]
        rintro ⟨e', he', hid⟩
        exact (h rfl).1 e' he' hid
    · simp only [hc, if_false]
      exact insertEntity_mem e _

/-- Witness for C3's amended theorem: adding the dual-component entity to a
fresh system puts it in the dynamic partition and not in the static one. -/
theorem claim_C3_one_partition_witness :
    ((∃ e' ∈ (onEntityValidation entBoth true (initPhysicsSystem3D Unit)).dynamicObjects,
        e'.id = entBoth.id) ↔ hasComp .physics3D entBoth) ∧
    ((∃ e' ∈ (onEntityValidation entBoth true (initPhysicsSystem3D Unit)).staticObjects,
        e'.id = entBoth.id) ↔ ¬hasComp .physics3D entBoth) :=
  claim_C3_one_partition entBoth true (initPhysicsSystem3D Unit)
    (fun _ => ⟨by simp [initPhysicsSystem3D], by simp [initPhysicsSystem3D]⟩)

/-- C7: on a tick with the world present, the static partition is synchronized
by `staticSync` with `invElapsedTime = 1 / elapsedTime` — the simulation step
itself only touches dynamic bodies — and `staticSync` sets a moved body's
position to the node position and its velocity to the displacement scaled by
`1 / elapsedTime`, and zeroes the velocity when the position is unchanged. -/
theorem claim_C7_static_sync {ρ : Type} [DecidableEq ρ] (ops : RotOps ρ)
    (stepDyn : ℚ → Body ρ → Body ρ) (dt : ℚ) (_hdt : 0 < dt)
    (s : PhysicsSystem3DState ρ) (n : ℕ) (hw : s.world = Option.some n) :
    (onUpdate ops stepDyn dt s).staticObjects =
      s.staticObjects.map (staticSync ops (1 / dt)) ∧
    ∀ e : EcsEntity ρ,
      (staticSync ops (1 / dt) e).body.position = e.nodePosition ∧
      (e.nodePosition ≠ e.body.position →
        (staticSync ops (1 / dt) e).body.velocity =
          (e.nodePosition.sub e.body.position).smul (1 / dt)) ∧
      (e.nodePosition = e.body.position →
        (staticSync ops (1 / dt) e).body.velocity = Vec3.zero) := by
  constructor
  · unfold onUpdate
    rw [hw]
  · intro e
    unfold staticSync
    by_cases hp : e.nodePosition ≠ e.body.position <;>
      by_cases hr : e.nodeRotation ≠ e.body.rotation <;>
      simp only [hp, hr, if_true, if_false, ite_true, ite_false, ite_not] <;>
      refine ⟨?_, fun h => ?_, fun h => ?_⟩ <;>
      first
        | rfl
        | (exact absurd h hp)
        | (exact absurd hp (not_not_intro h))
        | (simp_all)

/-- Witness for C7 at the spec's concrete scenario: a static entity at the
origin moved by the scene graph to `(2,0,0)` over an elapsed time of `1/2`
gets velocity `(4,0,0)` and tracked position `(2,0,0)`. -/
theorem claim_C7_static_sync_witness :
    (0 : ℚ) < 1 / 2 ∧
    (onUpdate unitRotOps (fun _ b => b) (1 / 2) physStateStatic).staticObjects =
      [staticSync unitRotOps (1 / (1 / 2)) entStaticMoved] ∧
    (staticSync unitRotOps (1 / (1 / 2 : ℚ)) entStaticMoved).body.position = ⟨2, 0, 0⟩ ∧
    (staticSync unitRotOps (1 / (1 / 2 : ℚ)) entStaticMoved).body.velocity = ⟨4, 0, 0⟩ := by
  have h := claim_C7_static_sync unitRotOps (fun _ b => b) (1 / 2) (by norm_num)
    physStateStatic 0 rfl
  refine ⟨by norm_num, h.1, ?_, ?_⟩
  · exact (h.2 entStaticMoved).1
  · rw [(h.2 entStaticMoved).2.1 (by decide)]
    simp only [entStaticMoved, Vec3.sub, Vec3.smul, Vec3.zero, Vec3.mk.injEq]
    norm_num

/-- C8: the physics world is constructed lazily: the constructor leaves it
absent, `OnUpdate` with no world is a complete no-op (so updates alone never
construct it), and entity validation constructs it when absent. -/
theorem claim_C8_lazy_world {ρ : Type} [DecidableEq ρ] :
    (initPhysicsSystem3D ρ).world = Option.none ∧
    (∀ (ops : RotOps ρ) (stepDyn : ℚ → Body ρ → Body ρ) (dt : ℚ)
        (s : PhysicsSystem3DState ρ),
      s.world = Option.none → onUpdate ops stepDyn dt s = s) ∧
    (∀ (e : EcsEntity ρ) (j : Bool) (s : PhysicsSystem3DState ρ),
      s.world = Option.none → (onEntityValidation e j s).world = Option.some 0) := by
  refine ⟨rfl, fun ops stepDyn dt s hw => ?_, fun e j s hw => ?_⟩
  · unfold onUpdate
    rw [hw]
  · unfold onEntityValidation
    by_cases hc : hasComp .physics3D e <;> cases j <;> simp [hw, hc]

/-- Witness for C8 at concrete inputs: the freshly constructed system has no
world, a tick on it changes nothing, and validating one entity creates the
world. -/
theorem claim_C8_lazy_world_witness :
    (initPhysicsSystem3D Unit).world = Option.none ∧
    onUpdate unitRotOps (fun _ b => b) 1 (initPhysicsSystem3D Unit) =
      initPhysicsSystem3D Unit ∧
    (onEntityValidation entBoth true (initPhysicsSystem3D Unit)).world =
      Option.some 0 :=
  ⟨(claim_C8_lazy_world (ρ := Unit)).1,
   (claim_C8_lazy_world (ρ := Unit)).2.1 unitRotOps (fun _ b => b) 1
     (initPhysicsSystem3D Unit) rfl,
   (claim_C8_lazy_world (ρ := Unit)).2.2 entBoth true
     (initPhysicsSystem3D Unit) rfl⟩

/-! ## Frame lemmas for the `EnsureStateUpdate` blocks -/

/-- `shaderStep` touches only the matrix slots and the shader/matrices flags;
it always leaves `Update_Shader` clear. -/
theorem shaderStep_frame {α : Type} (sh : Shader) (s : RendererState α) :
    (shaderStep sh s).updateFlags.textures = s.updateFlags.textures ∧
    (shaderStep sh s).updateFlags.vao = s.updateFlags.vao ∧
    (shaderStep sh s).updateFlags.shader = false ∧
    (shaderStep sh s).textureUnits = s.textureUnits ∧
    (shaderStep sh s).dirtyTextureUnits = s.dirtyTextureUnits ∧
    (shaderStep sh s).vaos = s.vaos ∧
    (shaderStep sh s).currentVAO = s.currentVAO ∧
    (shaderStep sh s).nextVAO = s.nextVAO ∧
    (shaderStep sh s).indexBuffer = s.indexBuffer ∧
    (shaderStep sh s).shader = s.shader ∧
    (shaderStep sh s).vertexBuffer = s.vertexBuffer ∧
    (shaderStep sh s).instancing = s.instancing ∧
    (shaderStep sh s).useSamplerObjects = s.useSamplerObjects ∧
    (shaderStep sh s).useVertexArrayObjects = s.useVertexArrayObjects := by
  unfold shaderStep
  split <;> simp_all

/-- `shaderStep` with a pending shader change, explicitly. -/
theorem shaderStep_true {α : Type} (sh : Shader) (s : RendererState α)
    (h : s.updateFlags.shader = true) :
    shaderStep sh s =
      { s with
        matrices :=
          { proj := { s.matrices.proj with location := sh.locProj, sent := false }
            view := { s.matrices.view with location := sh.locView, sent := false }
            world := { s.matrices.world with location := sh.locWorld, sent := false }
            viewProj := { s.matrices.viewProj with location := sh.locViewProj, sent := false }
            worldView := { s.matrices.worldView with location := sh.locWorldView, sent := false }
            worldViewProj :=
              { s.matrices.worldViewProj with location := sh.locWorldViewProj, sent := false } }
        updateFlags := { s.updateFlags with matrices := true, shader := false } } := by
  unfold shaderStep
  rw [if_pos h]

/-- `shaderStep` without a pending shader change is the identity. -/
theorem shaderStep_false {α : Type} (sh : Shader) (s : RendererState α)
    (h : s.updateFlags.shader = false) :
    shaderStep sh s = s := by
  unfold shaderStep
  rw [if_neg (by simp [h])]

/-- `textureStep` touches only the texture units, the pending dirty set and
`Update_Textures`; it always leaves `Update_Textures` clear. -/
theorem textureStep_frame {α : Type} (s : RendererState α) :
    (textureStep s).1.matrices = s.matrices ∧
    (textureStep s).1.updateFlags.matrices = s.updateFlags.matrices ∧
    (textureStep s).1.updateFlags.shader = s.updateFlags.shader ∧
    (textureStep s).1.updateFlags.vao = s.updateFlags.vao ∧
    (textureStep s).1.updateFlags.textures = false ∧
    (textureStep s).1.vaos = s.vaos ∧
    (textureStep s).1.currentVAO = s.currentVAO ∧
    (textureStep s).1.nextVAO = s.nextVAO ∧
    (textureStep s).1.indexBuffer = s.indexBuffer ∧
    (textureStep s).1.shader = s.shader ∧
    (textureStep s).1.vertexBuffer = s.vertexBuffer ∧
    (textureStep s).1.instancing = s.instancing ∧
    (textureStep s).1.useSamplerObjects = s.useSamplerObjects ∧
    (textureStep s).1.useVertexArrayObjects = s.useVertexArrayObjects := by
  unfold textureStep
  split <;> simp_all

/-- After `textureStep`, the pending dirty set is empty exactly when the block
ran. -/
theorem textureStep_dirty {α : Type} (s : RendererState α) :
    (textureStep s).1.dirtyTextureUnits =
      (if s.updateFlags.textures = true then [] else s.dirtyTextureUnits) := by
  unfold textureStep
  split <;> simp_all

/-- `matrixStep` touches only the matrix slots and `Update_Matrices`; it
always leaves `Update_Matrices` clear. -/
theorem matrixStep_frame {α : Type} (ops : MatrixOps α) (s : RendererState α) :
    (matrixStep ops s).1.updateFlags.shader = s.updateFlags.shader ∧
    (matrixStep ops s).1.updateFlags.textures = s.updateFlags.textures ∧
    (matrixStep ops s).1.updateFlags.vao = s.updateFlags.vao ∧
    (matrixStep ops s).1.updateFlags.matrices = false ∧
    (matrixStep ops s).1.textureUnits = s.textureUnits ∧
    (matrixStep ops s).1.dirtyTextureUnits = s.dirtyTextureUnits ∧
    (matrixStep ops s).1.vaos = s.vaos ∧
    (matrixStep ops s).1.currentVAO = s.currentVAO ∧
    (matrixStep ops s).1.nextVAO = s.nextVAO ∧
    (matrixStep ops s).1.indexBuffer = s.indexBuffer ∧
    (matrixStep ops s).1.shader = s.shader ∧
    (matrixStep ops s).1.vertexBuffer = s.vertexBuffer ∧
    (matrixStep ops s).1.instancing = s.instancing ∧
    (matrixStep ops s).1.useSamplerObjects = s.useSamplerObjects ∧
    (matrixStep ops s).1.useVertexArrayObjects = s.useVertexArrayObjects := by
  unfold matrixStep
  split <;> simp_all

/-- `matrixStep` without `Update_Matrices` pending sends nothing and changes
nothing. -/
theorem matrixStep_false {α : Type} (ops : MatrixOps α) (s : RendererState α)
    (h : s.updateFlags.matrices = false) :
    matrixStep ops s = (s, []) := by
  unfold matrixStep
  rw [if_neg (by simp [h])]

/-- Reading one slot after writing another (`s_matrices[t] = u`). -/
theorem MatrixSlots.get_set {α : Type} (sl : MatrixSlots α) (t t' : MatrixType)
    (u : MatrixUnit α) :
    (sl.set t u).get t' = if t' = t then u else sl.get t' := by
  cases t <;> cases t' <;> simp [MatrixSlots.get, MatrixSlots.set]

/-- `UpdateMatrix` never touches a slot's uniform location. -/
theorem updateMatrix_loc {α : Type} (ops : MatrixOps α) (t t' : MatrixType)
    (sl : MatrixSlots α) :
    ((updateMatrix ops t sl).get t').location = (sl.get t').location := by
  cases t <;> cases t' <;>
    first
      | rfl
      | (simp only [updateMatrix, MatrixSlots.get]
         split <;> rfl)

/-- One send-loop iteration never touches a slot's uniform location. -/
theorem sendMatrixStep_loc {α : Type} (ops : MatrixOps α) (ty ty' : MatrixType)
    (acc : MatrixSlots α × List MatrixType) :
    (((sendMatrixStep ops ty acc).1).get ty').location = ((acc.1).get ty').location := by
  unfold sendMatrixStep
  split
  · dsimp only
    rw [MatrixSlots.get_set]
    split
    · rename_i hty
      subst hty
      dsimp only
      split <;> [apply updateMatrix_loc; rfl]
    · split <;> [apply updateMatrix_loc; rfl]
  · rfl

/-- One send-loop iteration appends its matrix to the send trace exactly when
the slot's uniform exists in the shader. -/
theorem sendMatrixStep_trace {α : Type} (ops : MatrixOps α) (ty : MatrixType)
    (acc : MatrixSlots α × List MatrixType) :
    (sendMatrixStep ops ty acc).2 =
      acc.2 ++ (if ((acc.1).get ty).location ≠ -1 then [ty] else []) := by
  unfold sendMatrixStep
  split <;> simp_all

/-- The send loop never touches uniform locations. -/
theorem foldl_send_loc {α : Type} (ops : MatrixOps α) (l : List MatrixType)
    (acc : MatrixSlots α × List MatrixType) (ty' : MatrixType) :
    ((l.foldl (fun a t => sendMatrixStep ops t a) acc).1.get ty').location =
      ((acc.1).get ty').location := by
  induction l generalizing acc with
  | nil => rfl
  | cons t l ih => rw [List.foldl_cons, ih, sendMatrixStep_loc]

/-- The send loop sends exactly the matrices of its worklist whose uniform
exists in the shader, in worklist order. -/
theorem foldl_send_trace {α : Type} (ops : MatrixOps α) (l : List MatrixType)
    (acc : MatrixSlots α × List MatrixType) :
    (l.foldl (fun a t => sendMatrixStep ops t a) acc).2 =
      acc.2 ++ l.filter (fun t => decide (((acc.1).get t).location ≠ -1)) := by
  induction l generalizing acc with
  | nil => simp
  | cons t l ih =>
      rw [List.foldl_cons, ih]
      have hp : ∀ t' ∈ l,
          (decide ((((sendMatrixStep ops t acc).1).get t').location ≠ -1)) =
            (decide (((acc.1).get t').location ≠ -1)) := by
        intro t' _
        rw [sendMatrixStep_loc]
      rw [List.filter_congr hp, sendMatrixStep_trace, List.filter_cons]
      by_cases hc : ((acc.1).get t).location ≠ -1 <;> simp [hc]

/-- With `Update_Matrices` pending, the matrix block sends exactly the
matrices whose uniform location (as stored in the slots) is valid, in
enumeration order. -/
theorem matrixStep_trace {α : Type} (ops : MatrixOps α) (s : RendererState α)
    (h : s.updateFlags.matrices = true) :
    (matrixStep ops s).2 =
      matrixTypes.filter (fun t => decide ((s.matrices.get t).location ≠ -1)) := by
  unfold matrixStep
  rw [if_pos h]
  dsimp only
  rw [foldl_send_trace]
  simp

/-- The matrix block never touches uniform locations. -/
theorem matrixStep_loc {α : Type} (ops : MatrixOps α) (s : RendererState α)
    (ty' : MatrixType) :
    ((matrixStep ops s).1.matrices.get ty').location = (s.matrices.get ty').location := by
  unfold matrixStep
  split
  · dsimp only
    rw [foldl_send_loc]
  · rfl

/-- `EnsureStateUpdate` with an active context, a bound shader and at least one
pending update, reduced past the shader, texture and matrix blocks. -/
theorem ensure_gate {α : Type} (ops : MatrixOps α) (c : ℕ) (s : RendererState α)
    (sh : Shader) (hsh : s.shader = Option.some sh)
    (hany : (shaderStep sh s).updateFlags.any = true) :
    ensureStateUpdate ops (Option.some c) s =
      (let s3 := (matrixStep ops (textureStep (shaderStep sh s)).1).1
       let sent := (matrixStep ops (textureStep (shaderStep sh s)).1).2
       let texBinds := (textureStep (shaderStep sh s)).2.1
       let sampBinds := (textureStep (shaderStep sh s)).2.2
       if s3.updateFlags.vao = true then
         match s3.vertexBuffer with
         | Option.none =>
             (false, s3,
              { Trace.empty with sentMatrices := sent, textureBinds := texBinds
                                 samplerBinds := sampBinds })
         | Option.some vb =>
             let r4 : RendererState α × Bool :=
               if s3.useVertexArrayObjects then
                 match findVAO (vaoKey c vb s3) s3.vaos with
                 | Option.none =>
                     ({ s3 with currentVAO := s3.nextVAO
                                nextVAO := s3.nextVAO + 1
                                vaos := (vaoKey c vb s3, s3.nextVAO) :: s3.vaos },
                      true)
                 | Option.some h => ({ s3 with currentVAO := h }, false)
               else (s3, true)
             let s4 := r4.1
             let update := r4.2
             let specs := if update
               then vb.declaredElements + (if s4.instancing then 4 else 0) else 0
             let s5 := if s4.useVertexArrayObjects then
                 { s4 with updateFlags := { s4.updateFlags with vao := false } }
               else s4
             (true, s5,
              { sentMatrices := sent, attribSpecs := specs
                textureBinds := texBinds, samplerBinds := sampBinds
                boundVAO := if s5.useVertexArrayObjects
                  then Option.some s5.currentVAO else Option.none })
       else
         (true, s3,
          { Trace.empty with sentMatrices := sent, textureBinds := texBinds
                             samplerBinds := sampBinds
                             boundVAO := if s3.useVertexArrayObjects
                               then Option.some s3.currentVAO else Option.none })) := by
  unfold ensureStateUpdate
  rw [hsh]
  dsimp only
  rw [if_pos hany]

/-- C2, amended: the no-context and no-shader precondition failures of
`EnsureStateUpdate` abort the draw with the whole cached state unchanged; the
no-vertex-buffer failure (reachable when `Update_VAO` is pending) also aborts
the draw, but only after the shader, texture and matrix updates have been
committed: afterwards the shader/texture/matrix flags are clear, the pending
dirty-unit set has been consumed, and only `Update_VAO` is still pending. -/
theorem claim_C2_early_exit {α : Type} (ops : MatrixOps α) (s : RendererState α) :
    ensureStateUpdate ops Option.none s = (false, s, Trace.empty) ∧
    (s.shader = Option.none →
      ∀ c, ensureStateUpdate ops (Option.some c) s = (false, s, Trace.empty)) ∧
    (∀ (c : ℕ) (sh : Shader), s.shader = Option.some sh →
      s.vertexBuffer = Option.none → s.updateFlags.vao = true →
      (ensureStateUpdate ops (Option.some c) s).1 = false ∧
      (ensureStateUpdate ops (Option.some c) s).2.1.updateFlags =
        ⟨false, false, false, true⟩ ∧
      (ensureStateUpdate ops (Option.some c) s).2.1.dirtyTextureUnits =
        (if s.updateFlags.textures = true then [] else s.dirtyTextureUnits)) := by
  refine ⟨rfl, fun h c => ?_, fun c sh hsh hvb hvao => ?_⟩
  · unfold ensureStateUpdate
    rw [h]
  · obtain ⟨sTex, sVao, sShd, _, sDirty, _, _, _, _, _, sVb, _, _, _⟩ :=
      shaderStep_frame sh s
    obtain ⟨_, _, tShd, tVao, tTex, _, _, _, _, _, tVb, _, _, _⟩ :=
      textureStep_frame (shaderStep sh s)
    obtain ⟨mShd, mTex, mVao, mMat, _, mDirty, _, _, _, _, _, mVb, _, _, _⟩ :=
      matrixStep_frame ops (textureStep (shaderStep sh s)).1
    have hany : (shaderStep sh s).updateFlags.any = true := by
      unfold UpdateFlags.any
      rw [sVao, hvao]
      simp
    have hvao3 :
        (matrixStep ops (textureStep (shaderStep sh s)).1).1.updateFlags.vao = true := by
      rw [mVao, tVao, sVao, hvao]
    have hvb3 :
        (matrixStep ops (textureStep (shaderStep sh s)).1).1.vertexBuffer =
          Option.none := by
      rw [mVb, tVb, sVb, hvb]
    rw [ensure_gate ops c s sh hsh hany]
    dsimp only
    rw [if_pos hvao3, hvb3]
    refine ⟨rfl, ?_, ?_⟩
    · have h2 : (matrixStep ops (textureStep (shaderStep sh s)).1).1.updateFlags.shader
          = false := by rw [mShd, tShd, sShd]
      have h3 : (matrixStep ops (textureStep (shaderStep sh s)).1).1.updateFlags.textures
          = false := by rw [mTex, tTex]
      calc (matrixStep ops (textureStep (shaderStep sh s)).1).1.updateFlags
          = ⟨(matrixStep ops (textureStep (shaderStep sh s)).1).1.updateFlags.matrices,
             (matrixStep ops (textureStep (shaderStep sh s)).1).1.updateFlags.shader,
             (matrixStep ops (textureStep (shaderStep sh s)).1).1.updateFlags.textures,
             (matrixStep ops (textureStep (shaderStep sh s)).1).1.updateFlags.vao⟩ := rfl
        _ = ⟨false, false, false, true⟩ := by rw [mMat, h2, h3, hvao3]
    · rw [mDirty, textureStep_dirty (shaderStep sh s), sTex, sDirty]

/-- A concrete pre-draw state: a compiled shader is bound, texture unit 0 is
pending in the dirty set, the texture and VAO flags are raised, and no vertex
buffer is bound. -/
def cexC2State : RendererState MatTerm :=
  { baseState with
      shader := Option.some ⟨1, true, 0, 1, 2, 3, 4, 5⟩
      updateFlags := { matrices := false, shader := false, textures := true, vao := true }
      dirtyTextureUnits := [0] }

/-- C2, counterexample to the claim as stated: on the no-vertex-buffer failure
path, `EnsureStateUpdate` returns failure but does **not** leave the cached
state as it was — the pending dirty-unit set `[0]` has been consumed (and the
texture flag cleared) before the vertex-buffer check runs. -/
theorem claim_C2_partial_commit :
    (ensureStateUpdate freeOps (Option.some 0) cexC2State).1 = false ∧
    (ensureStateUpdate freeOps (Option.some 0) cexC2State).2.1 ≠ cexC2State ∧
    (ensureStateUpdate freeOps (Option.some 0) cexC2State).2.1.dirtyTextureUnits = [] ∧
    cexC2State.dirtyTextureUnits = [0] := by
  decide

/-- Witness for C2's amended theorem at concrete inputs: the no-context and
no-shader paths return the state untouched, and the no-vertex-buffer path
fails with exactly `Update_VAO` still pending. -/
theorem claim_C2_early_exit_witness :
    ensureStateUpdate freeOps Option.none cexC2State = (false, cexC2State, Trace.empty) ∧
    ensureStateUpdate freeOps (Option.some 0)
        { baseState with shader := Option.none } =
      (false, { baseState with shader := Option.none }, Trace.empty) ∧
    (ensureStateUpdate freeOps (Option.some 0) cexC2State).1 = false ∧
    (ensureStateUpdate freeOps (Option.some 0) cexC2State).2.1.updateFlags =
      ⟨false, false, false, true⟩ :=
  ⟨(claim_C2_early_exit freeOps cexC2State).1,
   (claim_C2_early_exit freeOps { baseState with shader := Option.none }).2.1 rfl 0,
   ((claim_C2_early_exit freeOps cexC2State).2.2 0 ⟨1, true, 0, 1, 2, 3, 4, 5⟩
      rfl rfl rfl).1,
   ((claim_C2_early_exit freeOps cexC2State).2.2 0 ⟨1, true, 0, 1, 2, 3, 4, 5⟩
      rfl rfl rfl).2.1⟩

/-- With no shader change and no matrix update pending, `EnsureStateUpdate`
sends no matrix at all. -/
theorem ensure_sends_nothing {α : Type} (ops : MatrixOps α) (c : ℕ)
    (s : RendererState α) (sh : Shader) (hsh : s.shader = Option.some sh)
    (h1 : s.updateFlags.shader = false) (h2 : s.updateFlags.matrices = false) :
    (ensureStateUpdate ops (Option.some c) s).2.2.sentMatrices = [] := by
  have tMat : (textureStep s).1.updateFlags.matrices = s.updateFlags.matrices :=
    (textureStep_frame s).2.1
  unfold ensureStateUpdate
  rw [hsh]
  dsimp only
  rw [shaderStep_false sh s h1,
      matrixStep_false ops (textureStep s).1 (by rw [tMat, h2])]
  dsimp only
  split
  · split
    · split <;> rfl
    · rfl
  · rfl

/-- The observable pieces of a gated `EnsureStateUpdate` call that the VAO
block never touches: the send trace and the state's matrix slots, shader
binding and shader/matrices flags all come from the matrix block's output. -/
theorem ensure_fields {α : Type} (ops : MatrixOps α) (c : ℕ)
    (s : RendererState α) (sh : Shader) (hsh : s.shader = Option.some sh)
    (hany : (shaderStep sh s).updateFlags.any = true) :
    (ensureStateUpdate ops (Option.some c) s).2.2.sentMatrices =
      (matrixStep ops (textureStep (shaderStep sh s)).1).2 ∧
    (ensureStateUpdate ops (Option.some c) s).2.1.updateFlags.shader =
      (matrixStep ops (textureStep (shaderStep sh s)).1).1.updateFlags.shader ∧
    (ensureStateUpdate ops (Option.some c) s).2.1.updateFlags.matrices =
      (matrixStep ops (textureStep (shaderStep sh s)).1).1.updateFlags.matrices ∧
    (ensureStateUpdate ops (Option.some c) s).2.1.shader =
      (matrixStep ops (textureStep (shaderStep sh s)).1).1.shader ∧
    (ensureStateUpdate ops (Option.some c) s).2.1.matrices =
      (matrixStep ops (textureStep (shaderStep sh s)).1).1.matrices := by
  refine ⟨?_, ?_, ?_, ?_, ?_⟩ <;>
    · rw [ensure_gate ops c s sh hsh hany]
      dsimp only
      repeat' split
      all_goals rfl

/-- C5, amended: after a shader change is recorded, the next
`EnsureStateUpdate` re-resolves every matrix's uniform location from the new
shader and re-sends exactly the matrices whose uniform exists in it
(`location ≠ -1`), each exactly once — matrices absent from the shader are not
sent — and a further `EnsureStateUpdate` on the resulting state sends
nothing. -/
theorem claim_C5_resend_on_shader_change {α : Type} (ops : MatrixOps α) (c : ℕ)
    (s : RendererState α) (sh : Shader) (hsh : s.shader = Option.some sh)
    (hflag : s.updateFlags.shader = true) :
    (ensureStateUpdate ops (Option.some c) s).2.2.sentMatrices =
      matrixTypes.filter (fun ty => decide (sh.loc ty ≠ -1)) ∧
    (∀ ty : MatrixType,
      ty ∈ (ensureStateUpdate ops (Option.some c) s).2.2.sentMatrices ↔
        sh.loc ty ≠ -1) ∧
    (ensureStateUpdate ops (Option.some c) s).2.2.sentMatrices.Nodup ∧
    (ensureStateUpdate ops (Option.some c)
        (ensureStateUpdate ops (Option.some c) s).2.1).2.2.sentMatrices = [] := by
  obtain ⟨_, _, sShd, _, _, _, _, _, _, sSh, _, _, _, _⟩ := shaderStep_frame sh s
  obtain ⟨tM, tMat, tShd, _, _, _, _, _, _, tSh, _, _, _, _⟩ :=
    textureStep_frame (shaderStep sh s)
  obtain ⟨mShd, _, _, mMat, _, _, _, _, _, _, mSh, _, _, _, _⟩ :=
    matrixStep_frame ops (textureStep (shaderStep sh s)).1
  have hmat1 : (shaderStep sh s).updateFlags.matrices = true := by
    rw [shaderStep_true sh s hflag]
  have hany : (shaderStep sh s).updateFlags.any = true := by
    unfold UpdateFlags.any
    rw [hmat1]
    simp
  obtain ⟨eTr, eShd, eMat, eSh, _⟩ := ensure_fields ops c s sh hsh hany
  have hm3 : (textureStep (shaderStep sh s)).1.updateFlags.matrices = true := by
    rw [tMat, hmat1]
  have hloc : ∀ ty : MatrixType,
      (((textureStep (shaderStep sh s)).1).matrices.get ty).location = sh.loc ty := by
    intro ty
    rw [tM, shaderStep_true sh s hflag]
    cases ty <;> rfl
  have htr : (ensureStateUpdate ops (Option.some c) s).2.2.sentMatrices =
      matrixTypes.filter (fun ty => decide (sh.loc ty ≠ -1)) := by
    rw [eTr, matrixStep_trace ops _ hm3]
    exact List.filter_congr (fun t _ => by rw [hloc t])
  refine ⟨htr, ?_, ?_, ?_⟩
  · intro ty
    rw [htr]
    have hmem : ty ∈ matrixTypes := by cases ty <;> decide
    simp [List.mem_filter, hmem]
  · rw [htr]
    exact List.Nodup.filter _ (by decide)
  · refine ensure_sends_nothing ops c _ sh ?_ ?_ ?_
    · rw [eSh, mSh, tSh, sSh, hsh]
    · rw [eShd, mShd, tShd, sShd]
    · rw [eMat, mMat]

/-- A state with a freshly recorded shader change: the newly bound shader
lacks the `WorldMatrix` uniform (`location = -1`), the other five exist. -/
def shaderSwitchState : RendererState MatTerm :=
  { baseState with
      shader := Option.some ⟨2, true, 0, 1, -1, 2, 3, 4⟩
      updateFlags := { matrices := false, shader := true, textures := false, vao := false } }

/-- C5, counterexample to the claim as stated: after the shader switch the
`World` matrix, whose uniform is absent from the new shader, is **not**
re-sent — the call sends the other five matrices and leaves `World`'s `sent`
flag clear — so "re-sends every matrix exactly once" fails for shaders that
lack a matrix uniform. -/
theorem claim_C5_absent_uniform_not_sent :
    (.World : MatrixType) ∉
      (ensureStateUpdate freeOps (Option.some 0) shaderSwitchState).2.2.sentMatrices ∧
    (ensureStateUpdate freeOps (Option.some 0) shaderSwitchState).2.1.matrices.world.sent
      = false ∧
    (ensureStateUpdate freeOps (Option.some 0) shaderSwitchState).2.2.sentMatrices =
      [.Projection, .View, .ViewProj, .WorldView, .WorldViewProj] := by
  decide

/-- Witness for C5's amended theorem at the concrete shader-switch state. -/
theorem claim_C5_resend_witness :
    (ensureStateUpdate freeOps (Option.some 0) shaderSwitchState).2.2.sentMatrices =
      matrixTypes.filter
        (fun ty => decide (Shader.loc ⟨2, true, 0, 1, -1, 2, 3, 4⟩ ty ≠ -1)) ∧
    (ensureStateUpdate freeOps (Option.some 0) shaderSwitchState).2.2.sentMatrices.Nodup ∧
    (ensureStateUpdate freeOps (Option.some 0)
        (ensureStateUpdate freeOps (Option.some 0) shaderSwitchState).2.1).2.2.sentMatrices
      = [] :=
  ⟨(claim_C5_resend_on_shader_change freeOps 0 shaderSwitchState
      ⟨2, true, 0, 1, -1, 2, 3, 4⟩ rfl rfl).1,
   (claim_C5_resend_on_shader_change freeOps 0 shaderSwitchState
      ⟨2, true, 0, 1, -1, 2, 3, 4⟩ rfl rfl).2.2.1,
   (claim_C5_resend_on_shader_change freeOps 0 shaderSwitchState
      ⟨2, true, 0, 1, -1, 2, 3, 4⟩ rfl rfl).2.2.2⟩

/-- `textureStep` without `Update_Textures` pending changes nothing and binds
nothing. -/
theorem textureStep_false {α : Type} (s : RendererState α)
    (h : s.updateFlags.textures = false) :
    textureStep s = (s, [], []) := by
  unfold textureStep
  rw [if_neg (by simp [h])]

/-- A pre-draw pass whose only pending update is the vertex-array binding,
on a state whose (context, index buffer, vertex buffer, instancing) key is
already in the VAO cache: the cached handle is reused and bound, no vertex
attribute is re-specified, and only `Update_VAO` is cleared. -/
theorem ensure_vao_hit {α : Type} (ops : MatrixOps α) (c : ℕ)
    (s : RendererState α) (sh : Shader) (vb : VertexBuffer) (h : ℕ)
    (hsh : s.shader = Option.some sh)
    (hshd : s.updateFlags.shader = false)
    (htex : s.updateFlags.textures = false)
    (hmat : s.updateFlags.matrices = false)
    (hvao : s.updateFlags.vao = true)
    (hvb : s.vertexBuffer = Option.some vb)
    (huse : s.useVertexArrayObjects = true)
    (hhit : findVAO ⟨c, s.indexBuffer, vb, s.instancing⟩ s.vaos = Option.some h) :
    ensureStateUpdate ops (Option.some c) s =
      (true,
       { s with currentVAO := h
                updateFlags := { s.updateFlags with vao := false } },
       { sentMatrices := [], attribSpecs := 0, textureBinds := [], samplerBinds := []
         boundVAO := Option.some h }) := by
  have hany : (shaderStep sh s).updateFlags.any = true := by
    rw [shaderStep_false sh s hshd]
    unfold UpdateFlags.any
    rw [hvao]
    simp
  rw [ensure_gate ops c s sh hsh hany, shaderStep_false sh s hshd,
      textureStep_false s htex]
  dsimp only
  rw [matrixStep_false ops s hmat]
  dsimp only
  rw [if_pos hvao, hvb]
  dsimp only
  rw [if_pos huse]
  unfold vaoKey
  rw [hhit]
  dsimp only
  rw [if_pos huse, if_pos huse, if_neg Bool.false_ne_true]

/-- C6: with VAOs supported, an `EnsureStateUpdate` whose (context, index
buffer, vertex buffer, instancing) key misses the VAO cache programs the
attributes once, stores the new handle under that key and binds it; re-dirtying
the vertex-array flag without changing the key and calling `EnsureStateUpdate`
again yields the identical handle from the cache and performs zero
vertex-attribute re-specification calls. -/
theorem claim_C6_vao_cache {α : Type} (ops : MatrixOps α) (c : ℕ)
    (s : RendererState α) (sh : Shader) (vb : VertexBuffer)
    (hsh : s.shader = Option.some sh)
    (huse : s.useVertexArrayObjects = true)
    (hvb : s.vertexBuffer = Option.some vb)
    (hvao : s.updateFlags.vao = true)
    (hmiss : findVAO ⟨c, s.indexBuffer, vb, s.instancing⟩ s.vaos = Option.none) :
    (ensureStateUpdate ops (Option.some c) s).1 = true ∧
    (ensureStateUpdate ops (Option.some c) s).2.2.boundVAO =
      Option.some (ensureStateUpdate ops (Option.some c) s).2.1.currentVAO ∧
    (let s₁ := (ensureStateUpdate ops (Option.some c) s).2.1
     let r₂ := ensureStateUpdate ops (Option.some c)
       { s₁ with updateFlags := { s₁.updateFlags with vao := true } }
     r₂.1 = true ∧
     r₂.2.1.currentVAO = s₁.currentVAO ∧
     r₂.2.2.boundVAO = Option.some s₁.currentVAO ∧
     r₂.2.2.attribSpecs = 0) := by
  obtain ⟨_, sVao, sShd, _, _, sVaos, sCur, sNext, sIdx, sSh, sVb, sInst, _, sUse⟩ :=
    shaderStep_frame sh s
  obtain ⟨_, _, tShd, tVao, tTex, tVaos, tCur, tNext, tIdx, tSh, tVb, tInst, _, tUse⟩ :=
    textureStep_frame (shaderStep sh s)
  obtain ⟨mShd, mTex, mVao, mMat, _, _, mVaos, mCur, mNext, mIdx, mSh, mVb, mInst, _, mUse⟩ :=
    matrixStep_frame ops (textureStep (shaderStep sh s)).1
  have hany : (shaderStep sh s).updateFlags.any = true := by
    unfold UpdateFlags.any
    rw [sVao, hvao]
    simp
  have fVao : (matrixStep ops (textureStep (shaderStep sh s)).1).1.updateFlags.vao = true := by
    rw [mVao, tVao, sVao, hvao]
  have fVb : (matrixStep ops (textureStep (shaderStep sh s)).1).1.vertexBuffer = Option.some vb := by
    rw [mVb, tVb, sVb, hvb]
  have fUse : (matrixStep ops (textureStep (shaderStep sh s)).1).1.useVertexArrayObjects = true := by
    rw [mUse, tUse, sUse, huse]
  have fIdx : (matrixStep ops (textureStep (shaderStep sh s)).1).1.indexBuffer = s.indexBuffer := by
    rw [mIdx, tIdx, sIdx]
  have fInst : (matrixStep ops (textureStep (shaderStep sh s)).1).1.instancing = s.instancing := by
    rw [mInst, tInst, sInst]
  have fVaos : (matrixStep ops (textureStep (shaderStep sh s)).1).1.vaos = s.vaos := by
    rw [mVaos, tVaos, sVaos]
  have fSh : (matrixStep ops (textureStep (shaderStep sh s)).1).1.shader = Option.some sh := by
    rw [mSh, tSh, sSh, hsh]
  have fShd : (matrixStep ops (textureStep (shaderStep sh s)).1).1.updateFlags.shader = false := by
    rw [mShd, tShd, sShd]
  have fTex : (matrixStep ops (textureStep (shaderStep sh s)).1).1.updateFlags.textures = false := by
    rw [mTex, tTex]
  have hkey : vaoKey c vb (matrixStep ops (textureStep (shaderStep sh s)).1).1 =
      (⟨c, s.indexBuffer, vb, s.instancing⟩ : VAOKey) := by
    unfold vaoKey
    rw [fIdx, fInst]
  have hmiss3 : findVAO (vaoKey c vb (matrixStep ops (textureStep (shaderStep sh s)).1).1)
      (matrixStep ops (textureStep (shaderStep sh s)).1).1.vaos = Option.none := by
    rw [hkey, fVaos]
    exact hmiss
  have e₁ : ensureStateUpdate ops (Option.some c) s =
      (true,
       { (matrixStep ops (textureStep (shaderStep sh s)).1).1 with
           currentVAO := (matrixStep ops (textureStep (shaderStep sh s)).1).1.nextVAO
           nextVAO := (matrixStep ops (textureStep (shaderStep sh s)).1).1.nextVAO + 1
           vaos := (⟨c, s.indexBuffer, vb, s.instancing⟩,
                    (matrixStep ops (textureStep (shaderStep sh s)).1).1.nextVAO) ::
                   (matrixStep ops (textureStep (shaderStep sh s)).1).1.vaos
           updateFlags :=
             { (matrixStep ops (textureStep (shaderStep sh s)).1).1.updateFlags with
                 vao := false } },
       { sentMatrices := (matrixStep ops (textureStep (shaderStep sh s)).1).2
         attribSpecs := vb.declaredElements + (if s.instancing then 4 else 0)
         textureBinds := (textureStep (shaderStep sh s)).2.1
         samplerBinds := (textureStep (shaderStep sh s)).2.2
         boundVAO := Option.some (matrixStep ops (textureStep (shaderStep sh s)).1).1.nextVAO }) := by
    rw [ensure_gate ops c s sh hsh hany]
    dsimp only
    rw [if_pos fVao, fVb]
    dsimp only
    rw [if_pos fUse, hmiss3]
    dsimp only
    rw [if_pos (show ((matrixStep ops (textureStep (shaderStep sh s)).1).1).useVertexArrayObjects = true from fUse)]
    dsimp only
    rw [fInst, if_pos rfl, if_pos fUse, hkey]
  rw [e₁]
  dsimp only
  refine ⟨rfl, rfl, ?_, ?_, ?_, ?_⟩ <;>
    · rw [ensure_vao_hit ops c _ sh vb
        (matrixStep ops (textureStep (shaderStep sh s)).1).1.nextVAO
        (by exact fSh) (by exact fShd) (by exact fTex) (by exact mMat)
        (by exact rfl) (by exact fVb) (by exact fUse)
        (by rw [fIdx, fInst]; simp [findVAO])]

/-- A concrete pre-draw state for the VAO cache: VAOs supported, a shader and
a hardware vertex buffer (3 declared elements) bound, `Update_VAO` pending,
empty cache. -/
def vaoState : RendererState MatTerm :=
  { baseState with
      shader := Option.some ⟨1, true, 0, 1, 2, 3, 4, 5⟩
      vertexBuffer := Option.some ⟨10, true, 3⟩
      updateFlags := { matrices := false, shader := false, textures := false, vao := true } }

/-- Witness for C6 at the concrete state: both calls succeed, the same handle
is bound on both, and the second call performs zero attribute
re-specifications. -/
theorem claim_C6_vao_cache_witness :
    (ensureStateUpdate freeOps (Option.some 0) vaoState).1 = true ∧
    (ensureStateUpdate freeOps (Option.some 0) vaoState).2.2.boundVAO =
      Option.some (ensureStateUpdate freeOps (Option.some 0) vaoState).2.1.currentVAO ∧
    (let s₁ := (ensureStateUpdate freeOps (Option.some 0) vaoState).2.1
     let r₂ := ensureStateUpdate freeOps (Option.some 0)
       { s₁ with updateFlags := { s₁.updateFlags with vao := true } }
     r₂.1 = true ∧
     r₂.2.1.currentVAO = s₁.currentVAO ∧
     r₂.2.2.boundVAO = Option.some s₁.currentVAO ∧
     r₂.2.2.attribSpecs = 0) :=
  claim_C6_vao_cache freeOps 0 vaoState ⟨1, true, 0, 1, 2, 3, 4, 5⟩ ⟨10, true, 3⟩
    rfl rfl rfl rfl rfl
